import Mathlib

/-!
Shallow embedding of `src/app.py` (DiscogsMonitor): configuration validation,
listing processing with dedup and notification dispatch, marketplace fetch
response handling, and the monitor loop's sleep selection.

Python mappings with optional keys are modelled with `Option` fields; a
Python `KeyError` raised by direct subscripting (`listing['id']`,
`listing['price']`) is modelled with `Except` / an error-carrying result.
Logging is modelled as lists of the log-line strings the code builds;
the network layer is abstracted as fetch-outcome inputs.
-/

set_option autoImplicit false

namespace VinylNotify

/-! ## Config loading (`DiscogsMonitor._validate_config`, src/app.py lines 39-48) -/

/-- The `required_vars` list, in the declared order (lines 40-44). -/
def required_vars : List String :=
  ["DISCOGS_API_KEY", "PUSHOVER_TOKEN", "PUSHOVER_USER"]

/-- Python truthiness test `not os.getenv(var)`: true when the variable is
unset (`None`) or set to the empty string. -/
def falsy : Option String → Bool
  | none => true
  | some s => s = ""

/-- The `missing` list comprehension of line 46: required variables whose
value in the environment is falsy, kept in declared order. -/
def missingVars (env : String → Option String) : List String :=
  required_vars.filter (fun v => falsy (env v))

/-- The body of `_validate_config` (lines 46-48): raise `ValueError` with the
comma-joined missing names, or return normally. -/
def validate_config (env : String → Option String) : Except String Unit :=
  let missing := missingVars env
  if missing.isEmpty then Except.ok ()
  else Except.error ("Missing required environment variables: " ++ String.intercalate ", " missing)

/-- An environment that binds the three required variables to the given
optional values and everything else to `none`. -/
def mkEnv (a b c : Option String) : String → Option String := fun k =>
  if k = "DISCOGS_API_KEY" then a
  else if k = "PUSHOVER_TOKEN" then b
  else if k = "PUSHOVER_USER" then c
  else none

/-! ## Listings and price normalization (`process_listings`, lines 117-153) -/

/-- The dynamic `price` field of a listing payload: either a mapping with
`value`/`currency` entries or a bare string (line 127's `isinstance` check). -/
inductive RawPrice where
  | dict (value : String) (currency : String)
  | str (s : String)
deriving DecidableEq, Repr

/-- One listing payload. Every field the code reads is optional in the source
JSON; `id` is optional too because `listing['id']` (line 121) raises
`KeyError` when absent. -/
structure Listing where
  id : Option Nat
  price : Option RawPrice
  currency : Option String
  condition : Option String
  ships_from : Option String
  location : Option String
  uri : Option String
  url : Option String
deriving DecidableEq, Repr

/-- The normalized `price` mapping built at lines 127-133. -/
structure Price where
  value : String
  currency : String
deriving DecidableEq, Repr

/-- A Python exception escaping the modelled code (only `KeyError` can). -/
inductive PyError where
  | keyError (k : String)
deriving DecidableEq, Repr

/-- Price normalization, lines 127-133.  Note the guard `isinstance(listing['price'], dict)`
subscripts `price` directly: when the field is absent this raises `KeyError`
before the `.get('price', '0')` fallback of line 131 can run. -/
def normalizePrice (l : Listing) : Except PyError Price :=
  match l.price with
  | none => Except.error (PyError.keyError "price")
  | some (RawPrice.dict v c) => Except.ok ⟨v, c⟩
  | some (RawPrice.str p) => Except.ok ⟨p, l.currency.getD "USD"⟩

/-- A Pushover notification payload as dispatched by `send_notification`
(title, message, optional url, priority). -/
structure Notification where
  title : String
  message : String
  url : Option String
  priority : Nat
deriving DecidableEq, Repr

/-- The fixed notification title of line 138. -/
def listing_title : String := "💿 New Mk.gee - Fool Vinyl Listed!"

/-- The three-line message of lines 139-143. -/
def mkMessage (p : Price) (cond loc : String) : String :=
  "Price: " ++ p.value ++ " " ++ p.currency ++ "\n" ++
  "Condition: " ++ cond ++ "\n" ++
  "Ships from: " ++ loc

/-- The monitor's mutable state touched by `process_listings`: the seen-set
(`self.seen_listings`, a set of ids, modelled as a duplicate-free list) and
the sequence of notifications dispatched so far. -/
structure MonitorState where
  seen : List Nat
  sent : List Notification
deriving DecidableEq, Repr

/-- `send_notification` (lines 54-74) as seen by `process_listings`: it
dispatches the payload and never raises (its own body catches everything). -/
def send_notification (s : MonitorState) (n : Notification) : MonitorState :=
  { s with sent := s.sent ++ [n] }

/-- The body of the `for` loop of `process_listings` (lines 120-153) for one
listing.  Order of operations as in the source: read `listing['id']`
(KeyError when absent), skip if seen, otherwise add to the seen-set, then
normalize price (which can raise), then defaults for condition/location,
then dispatch. -/
def process_listing (s : MonitorState) (l : Listing) : Except (MonitorState × PyError) MonitorState :=
  match l.id with
  | none => Except.error (s, PyError.keyError "id")
  | some i =>
    if i ∈ s.seen then Except.ok s
    else
      let s1 : MonitorState := { s with seen := i :: s.seen }
      match normalizePrice l with
      | Except.error e => Except.error (s1, e)
      | Except.ok p =>
        let cond := l.condition.getD "Not specified"
        let loc := l.ships_from.getD (l.location.getD "Unknown")
        let u : Option String := match l.uri with
          | some x => some x
          | none => l.url
        Except.ok (send_notification s1 ⟨listing_title, mkMessage p cond loc, u, 1⟩)

/-- Result of a `process_listings` call: normal return, or an exception
thrown partway with the state reached at the throw point. -/
inductive ProcResult where
  | ok (s : MonitorState)
  | err (s : MonitorState) (e : PyError)
deriving DecidableEq, Repr

/-- The state carried by a `ProcResult`, whether or not an exception was
thrown. -/
def ProcResult.state : ProcResult → MonitorState
  | .ok s => s
  | .err s _ => s

/-- Whether the call returned without raising. -/
def ProcResult.isOk : ProcResult → Bool
  | .ok _ => true
  | .err _ _ => false

/-- `process_listings` (lines 117-153): fold `process_listing` over the
listing array in order, stopping at the first exception. -/
def process_listings (s : MonitorState) : List Listing → ProcResult
  | [] => ProcResult.ok s
  | l :: rest =>
    match process_listing s l with
    | Except.error (s', e) => ProcResult.err s' e
    | Except.ok s' => process_listings s' rest

/-! ## Fetch layer (`check_listings`, lines 76-115) -/

/-- The response metadata attached to a `requests.exceptions.RequestException`
when `e.response is not None` (lines 113-115): status code, body text, and
headers (which include the rate-limit headers when the server sent them). -/
structure RespMeta where
  status_code : Nat
  text : String
  headers : List (String × String)
deriving DecidableEq, Repr

/-- A `requests.exceptions.RequestException`: its message and its optional
attached response. -/
structure ReqErr where
  msg : String
  response : Option RespMeta
deriving DecidableEq, Repr

/-- The JSON body of a successful marketplace response, keeping only the two
keys lines 103-106 look at; `some` means the key is present. -/
structure ResponseBody where
  listings : Option (List Listing)
  results : Option (List Listing)
deriving DecidableEq, Repr

/-- The log lines emitted by the `except` clause of `check_listings`
(lines 111-115): the error, then status and body when a response is
attached.  Nothing from `headers` is logged. -/
def errorLogs (e : ReqErr) : List String :=
  ("Error checking listings: " ++ e.msg) ::
  (match e.response with
   | some r => ["Response status: " ++ toString r.status_code, "Response body: " ++ r.text]
   | none => [])

/-- Outcome of one `check_listings` call: the state after it, the log lines
of the fetch layer, and the exception escaping the call, if any (only a
non-`RequestException`, i.e. a `KeyError` from `process_listings`, can
escape — the `except` clause of line 111 catches `RequestException` only). -/
structure CheckResult where
  st : MonitorState
  logs : List String
  escaped : Option PyError
deriving DecidableEq, Repr

/-- Delegation to `process_listings` from lines 104/106, with the
"Found n listings" log of line 118; a `KeyError` thrown by
`process_listings` escapes `check_listings`. -/
def runProcess (st : MonitorState) (ls : List Listing) : CheckResult :=
  match process_listings st ls with
  | ProcResult.ok s' => ⟨s', ["Found " ++ toString ls.length ++ " listings"], none⟩
  | ProcResult.err s' e => ⟨s', ["Found " ++ toString ls.length ++ " listings"], some e⟩

/-- `check_listings` (lines 76-115) with the two network calls abstracted as
their outcomes: the release-info GET (line 83, body unused) and the
marketplace-listings GET (line 95).  A `RequestException` from either is
caught at line 111; key dispatch on the body follows lines 103-109. -/
def check_listings (st : MonitorState) (rid : String)
    (releaseFetch : Except ReqErr Unit) (listingsFetch : Except ReqErr ResponseBody) :
    CheckResult :=
  match releaseFetch with
  | Except.error e => ⟨st, errorLogs e, none⟩
  | Except.ok _ =>
    match listingsFetch with
    | Except.error e => ⟨st, errorLogs e, none⟩
    | Except.ok data =>
      match data.listings with
      | some ls => runProcess st ls
      | none =>
        match data.results with
        | some ls => runProcess st ls
        | none => ⟨st, ["No listings found for release " ++ rid], none⟩

/-! ## The HTTP requests `check_listings` issues (lines 80-96) -/

/-- A GET request: host, path segments, query parameters in order. -/
structure HttpRequest where
  method : String
  host : String
  path : List String
  params : List (String × String)
deriving DecidableEq, Repr

/-- `self.base_url` (line 30). -/
def base_url : String := "https://api.discogs.com"

/-- The release-info request of lines 80-83: `GET {base_url}/releases/{release_id}`,
no query parameters. -/
def releaseRequest (rid : String) : HttpRequest :=
  ⟨"GET", base_url, ["releases", rid], []⟩

/-- The marketplace request of lines 87-95:
`GET {base_url}/marketplace/listings` with the `params` dict of lines 88-92,
in insertion order. -/
def marketplaceRequest (rid : String) : HttpRequest :=
  ⟨"GET", base_url, ["marketplace", "listings"],
   [("release_id", rid), ("status", "For Sale"), ("format", "Vinyl")]⟩

/-- The sequence of requests one `check_listings` call issues: the release
request always, then the marketplace request unless the release request
raised (in which case control jumps to the `except` clause). -/
def check_listings_requests (rid : String) (releaseOk : Bool) : List HttpRequest :=
  releaseRequest rid :: (if releaseOk then [marketplaceRequest rid] else [])

/-- Whether a request targets the marketplace listings endpoint. -/
def isMarketplaceRequest (r : HttpRequest) : Bool :=
  r.host = base_url && r.path = ["marketplace", "listings"]

/-! ## Monitor loop (`run`, lines 155-175) -/

/-- Python `str()` of the modelled exceptions, as interpolated at line 174
(`str(KeyError(k))` prints the repr of the key). -/
def describePyError : PyError → String
  | PyError.keyError k => "'" ++ k ++ "'"

/-- The default `interval` argument of `run` (line 155). -/
def run_default_interval : Nat := 300

/-- One iteration of the `while` loop of lines 165-175: call
`check_listings`; when no exception escapes it, sleep the configured
interval in 1-unit increments (lines 169-172); when one does, log
"Unexpected error" and sleep a single 60-unit cooldown (lines 173-175).
Returns the state, the log lines, and the list of sleep durations. -/
def run_cycle (st : MonitorState) (rid : String)
    (releaseFetch : Except ReqErr Unit) (listingsFetch : Except ReqErr ResponseBody)
    (interval : Nat) : CheckResult × List Nat :=
  let r := check_listings st rid releaseFetch listingsFetch
  match r.escaped with
  | none => (r, List.replicate interval 1)
  | some e => ({ r with logs := r.logs ++ ["Unexpected error: " ++ describePyError e] }, [60])

/-! ## Concrete listings used as test inputs -/

/-- A fully-populated listing with id 1 and a mapping-valued price. -/
def listingA : Listing :=
  { id := some 1, price := some (RawPrice.dict "25.00" "USD"), currency := none,
    condition := some "Mint (M)", ships_from := some "United States", location := none,
    uri := some "https://www.discogs.com/sell/item/1", url := none }

/-- A fully-populated listing with id 2. -/
def listingB : Listing :=
  { id := some 2, price := some (RawPrice.dict "30.00" "EUR"), currency := none,
    condition := some "Near Mint (NM or M-)", ships_from := some "Germany", location := none,
    uri := some "https://www.discogs.com/sell/item/2", url := none }

/-- A fully-populated listing with id 3. -/
def listingC : Listing :=
  { id := some 3, price := some (RawPrice.dict "40.00" "GBP"), currency := none,
    condition := some "Very Good Plus (VG+)", ships_from := none, location := some "UK",
    uri := none, url := some "https://www.discogs.com/sell/item/3" }

/-- A listing with id 9 that lacks the `price` field. -/
def missingPriceListing : Listing :=
  { id := some 9, price := none, currency := none,
    condition := some "Mint (M)", ships_from := some "France", location := none,
    uri := none, url := none }

/-- A listing with id 7 carrying a price but no condition, ships-from or
location field. -/
def noCondLocListing : Listing :=
  { id := some 7, price := some (RawPrice.dict "10" "USD"), currency := none,
    condition := none, ships_from := none, location := none,
    uri := none, url := none }

/-- A listing with id 4 whose price is the bare string "5.00" and whose
payload carries a `currency` field "EUR". -/
def eurStringListing : Listing :=
  { id := some 4, price := some (RawPrice.str "5.00"), currency := some "EUR",
    condition := none, ships_from := none, location := none,
    uri := none, url := none }

/-- A `RequestException` carrying a 429 response whose headers include the
Discogs rate-limit headers. -/
def rateLimitedErr : ReqErr :=
  ⟨"429 Client Error: Too Many Requests", some ⟨429, "rate limited",
    [("X-Discogs-Ratelimit", "60"), ("X-Discogs-Ratelimit-Remaining", "0")]⟩⟩

/-! ## Helper lemmas about the seen-set -/

/-- One processed listing never shrinks the seen-set (normal return). -/
theorem process_listing_ok_seen_mono {s s' : MonitorState} {l : Listing}
    (h : process_listing s l = Except.ok s') : s.seen ⊆ s'.seen := by
  unfold process_listing at h
  split at h
  · exact absurd h (by simp)
  · split at h
    · simp only [Except.ok.injEq] at h
      exact h ▸ List.Subset.refl _
    · split at h
      · exact absurd h (by simp)
      · simp only [Except.ok.injEq] at h
        subst h
        exact List.subset_cons_self _ _

/-- One processed listing never shrinks the seen-set (exception thrown). -/
theorem process_listing_err_seen_mono {s s' : MonitorState} {l : Listing} {e : PyError}
    (h : process_listing s l = Except.error (s', e)) : s.seen ⊆ s'.seen := by
  unfold process_listing at h
  split at h
  · simp only [Except.error.injEq, Prod.mk.injEq] at h
    exact h.1 ▸ List.Subset.refl _
  · split at h
    · exact absurd h (by simp)
    · split at h
      · simp only [Except.error.injEq, Prod.mk.injEq] at h
        exact h.1 ▸ List.subset_cons_self _ _
      · exact absurd h (by simp)

/-- The state reached by one `process_listing` step, whether it returned
normally or threw. -/
def throwState : Except (MonitorState × PyError) MonitorState → MonitorState
  | Except.ok s => s
  | Except.error (s, _) => s

/-- Whichever way one `process_listing` step ends, a listing that carries an
id leaves that id in the seen-set: the skip branch requires it to be there
already, and the add of line 124 precedes both the price extraction of
line 127 (which can throw) and the dispatch. -/
theorem process_listing_id_mem (s : MonitorState) (l : Listing) (i : Nat)
    (hid : l.id = some i) : i ∈ (throwState (process_listing s l)).seen := by
  unfold process_listing
  split
  · next heq => rw [hid] at heq; cases heq
  · next i' heq =>
    rw [hid] at heq
    injection heq with h'
    subst h'
    split
    · next hmem => exact hmem
    · next hmem =>
      split
      · exact List.mem_cons_self _ _
      · exact List.mem_cons_self _ _

/-- After a normal return of `process_listing`, the listing's id (when it
has one) is in the seen-set. -/
theorem process_listing_ok_id_mem {s s' : MonitorState} {l : Listing} {i : Nat}
    (h : process_listing s l = Except.ok s') (hid : l.id = some i) : i ∈ s'.seen := by
  have hmem := process_listing_id_mem s l i hid
  rw [h] at hmem
  exact hmem

/-- When `process_listing` throws while handling a listing that does carry
an id, that id was added to the seen-set before the throw. -/
theorem process_listing_err_id_mem {s s' : MonitorState} {l : Listing} {e : PyError} {i : Nat}
    (h : process_listing s l = Except.error (s', e)) (hid : l.id = some i) : i ∈ s'.seen := by
  have hmem := process_listing_id_mem s l i hid
  rw [h] at hmem
  exact hmem

/-- A whole `process_listings` call never shrinks the seen-set, whether it
returns normally or throws partway. -/
theorem process_listings_seen_mono (ls : List Listing) (s : MonitorState) :
    s.seen ⊆ (process_listings s ls).state.seen := by
  induction ls generalizing s with
  | nil => exact List.Subset.refl _
  | cons l rest ih =>
    show s.seen ⊆ (match process_listing s l with
      | Except.error (s', e) => ProcResult.err s' e
      | Except.ok s' => process_listings s' rest).state.seen
    cases hpo : process_listing s l with
    | error p =>
      obtain ⟨s', e⟩ := p
      exact process_listing_err_seen_mono hpo
    | ok s' =>
      exact (process_listing_ok_seen_mono hpo).trans (ih s')

/-- A normal return of `process_listings` never shrinks the seen-set. -/
theorem process_listings_ok_seen_mono {s s' : MonitorState} {ls : List Listing}
    (h : process_listings s ls = ProcResult.ok s') : s.seen ⊆ s'.seen := by
  have := process_listings_seen_mono ls s
  rw [h] at this
  exact this

/-- After a normal return of `process_listings`, the id of every processed
listing is in the final seen-set. -/
theorem process_listings_ok_id_mem {s s' : MonitorState} {ls : List Listing}
    (h : process_listings s ls = ProcResult.ok s') :
    ∀ l ∈ ls, ∀ i, l.id = some i → i ∈ s'.seen := by
  induction ls generalizing s with
  | nil => intro l hl; exact absurd hl (List.not_mem_nil l)
  | cons a rest ih =>
    intro l hl i hid
    have h' : (match process_listing s a with
      | Except.error (s', e) => ProcResult.err s' e
      | Except.ok s' => process_listings s' rest) = ProcResult.ok s' := h
    cases hpo : process_listing s a with
    | error p =>
      obtain ⟨s1, e⟩ := p
      rw [hpo] at h'
      exact absurd h' (by simp)
    | ok s1 =>
      rw [hpo] at h'
      rcases List.mem_cons.mp hl with hhead | htail
      · subst hhead
        exact process_listings_ok_seen_mono h' (process_listing_ok_id_mem hpo hid)
      · exact ih h' l htail i hid

/-! ## Claim theorems -/

/-- C1: once `process_listings` has run on a listing with identifier i, a
later call with any listing bearing i dispatches no additional notification
(the whole state is unchanged by the skip branch); after a normal return
every processed listing's identifier is in the seen-set; and in the
concrete two-cycle scenario [A, B] then [B, C] exactly 3 notifications are
sent in total, B's only in cycle 1. -/
theorem dedup_no_renotify :
    (∀ (s : MonitorState) (l : Listing) (i : Nat),
       l.id = some i → i ∈ s.seen → process_listing s l = Except.ok s)
    ∧ (∀ (s s' : MonitorState) (ls : List Listing),
       process_listings s ls = ProcResult.ok s' →
       ∀ l ∈ ls, ∀ i, l.id = some i → i ∈ s'.seen)
    ∧ ((process_listings ⟨[], []⟩ [listingA, listingB]).isOk = true
       ∧ (process_listings ⟨[], []⟩ [listingA, listingB]).state.sent.length = 2
       ∧ (process_listings (process_listings ⟨[], []⟩ [listingA, listingB]).state
            [listingB, listingC]).isOk = true
       ∧ (process_listings (process_listings ⟨[], []⟩ [listingA, listingB]).state
            [listingB, listingC]).state.sent.length = 3) := by
  refine ⟨?_, fun s s' ls h => process_listings_ok_id_mem h, rfl, rfl, rfl, rfl⟩
  intro s l i hid hmem
  unfold process_listing
  rw [hid]
  simp [hmem]

/-- Witness for C1: a listing whose id 2 is already in the seen-set is
skipped, leaving the state untouched. -/
theorem dedup_no_renotify_witness :
    process_listing ⟨[2], []⟩ listingB = Except.ok ⟨[2], []⟩ :=
  dedup_no_renotify.1 ⟨[2], []⟩ listingB 2 rfl (List.mem_cons_self 2 [])

/-- C9: the seen-set only ever grows.  Any `process_listings` call, whether
it returns normally or throws partway, ends with a superset of the starting
seen-set; when one listing's processing throws, the identifiers added
before the failure remain, including the failing listing's own id (the add
of line 124 happens before the price extraction that throws).  The concrete
run on [A, missing-price] throws yet leaves seen = [9, 1]. -/
theorem seen_set_only_grows :
    (∀ (s : MonitorState) (ls : List Listing), s.seen ⊆ (process_listings s ls).state.seen)
    ∧ (∀ (s s' : MonitorState) (l : Listing) (e : PyError),
       process_listing s l = Except.error (s', e) →
       s.seen ⊆ s'.seen ∧ ∀ i, l.id = some i → i ∈ s'.seen)
    ∧ ((process_listings ⟨[], []⟩ [listingA, missingPriceListing]).isOk = false
       ∧ (process_listings ⟨[], []⟩ [listingA, missingPriceListing]).state.seen = [9, 1]) :=
  ⟨fun s ls => process_listings_seen_mono ls s,
   fun _ _ _ _ h => ⟨process_listing_err_seen_mono h, fun _ hid => process_listing_err_id_mem h hid⟩,
   rfl, rfl⟩

/-- Witness for C9: applying the throw-case clause to the concrete state
{seen = [5]} and the missing-price listing (which throws with state
{seen = [9, 5]}) shows 5 is still in the seen-set afterwards. -/
theorem seen_set_only_grows_witness : (5 : Nat) ∈ ([9, 5] : List Nat) :=
  (seen_set_only_grows.2.1 ⟨[5], []⟩ ⟨[9, 5], []⟩ missingPriceListing
    (PyError.keyError "price") rfl).1 (List.mem_cons_self 5 [])

/-- C2 (code-bug evidence): a listing lacking the `price` field makes
`process_listings` raise `KeyError('price')` — line 127 subscripts
`listing['price']` directly before the `.get('price', '0')` fallback of
line 131 can apply — instead of dispatching a notification with the
documented "0"/"USD" default.  By contrast, a listing lacking only
condition and location is notified with the documented defaults
"Not specified" and "Unknown". -/
theorem missing_price_raises :
    process_listing ⟨[], []⟩ missingPriceListing
      = Except.error (⟨[9], []⟩, PyError.keyError "price")
    ∧ process_listings ⟨[], []⟩ [missingPriceListing]
      = ProcResult.err ⟨[9], []⟩ (PyError.keyError "price")
    ∧ process_listing ⟨[], []⟩ noCondLocListing
      = Except.ok ⟨[7], [⟨listing_title,
          "Price: 10 USD\nCondition: Not specified\nShips from: Unknown", none, 1⟩]⟩ :=
  ⟨rfl, rfl, rfl⟩

/-- C8 counterexample: the claim says a bare-string price p always becomes
{value: p, currency: "USD"} and an absent price becomes {value: "0",
currency: "USD"}.  On a listing with string price "5.00" and a `currency`
field "EUR" the code produces currency "EUR", not "USD"; and on an absent
price field it raises `KeyError` rather than defaulting. -/
theorem price_normalization_counterexample :
    normalizePrice eurStringListing = Except.ok ⟨"5.00", "EUR"⟩
    ∧ (⟨"5.00", "EUR"⟩ : Price) ≠ ⟨"5.00", "USD"⟩
    ∧ normalizePrice missingPriceListing = Except.error (PyError.keyError "price") :=
  ⟨rfl, by decide, rfl⟩

/-- C8 amended: price normalization maps a mapping-valued price to itself;
maps a bare-string price p to {value: p, currency: c} where c is the
listing's own `currency` field defaulting to "USD" when that field is
absent; and raises `KeyError` when the price field is absent. -/
theorem price_normalization_amended :
    (∀ (l : Listing) (v c : String), l.price = some (RawPrice.dict v c) →
       normalizePrice l = Except.ok ⟨v, c⟩)
    ∧ (∀ (l : Listing) (p : String), l.price = some (RawPrice.str p) →
       normalizePrice l = Except.ok ⟨p, l.currency.getD "USD"⟩)
    ∧ (∀ l : Listing, l.price = none →
       normalizePrice l = Except.error (PyError.keyError "price")) := by
  refine ⟨?_, ?_, ?_⟩
  · intro l v c h; unfold normalizePrice; rw [h]
  · intro l p h; unfold normalizePrice; rw [h]
  · intro l h; unfold normalizePrice; rw [h]

/-- Witness for C8's amended claim: the bare-string clause applied to the
concrete listing with price "5.00" and currency field "EUR". -/
theorem price_normalization_amended_witness :
    normalizePrice eurStringListing = Except.ok ⟨"5.00", "EUR"⟩ :=
  price_normalization_amended.2.1 eurStringListing "5.00" rfl

/-- C3 counterexample: the claim says the marketplace request carries
`per_page=100`; the `params` dict of lines 88-92 has no such entry. -/
theorem marketplace_request_counterexample :
    ("per_page", "100") ∉ (marketplaceRequest "13811316").params := by decide

/-- C3 amended: each poll cycle in which the preceding release-info request
succeeds issues exactly one GET request to the marketplace listings
endpoint, with query parameters release_id, status=For Sale and
format=Vinyl, and with no per_page parameter. -/
theorem marketplace_request_amended (rid : String) :
    (check_listings_requests rid true).filter isMarketplaceRequest = [marketplaceRequest rid]
    ∧ (marketplaceRequest rid).method = "GET"
    ∧ (marketplaceRequest rid).params =
        [("release_id", rid), ("status", "For Sale"), ("format", "Vinyl")]
    ∧ ∀ p ∈ (marketplaceRequest rid).params, p.1 ≠ "per_page" := by
  refine ⟨?_, rfl, rfl, ?_⟩
  · simp [check_listings_requests, isMarketplaceRequest, releaseRequest, marketplaceRequest,
      base_url, List.filter]
  · intro p hp
    simp only [marketplaceRequest, List.mem_cons, List.not_mem_nil, or_false] at hp
    rcases hp with rfl | rfl | rfl <;> simp

/-- Witness for C3's amended claim at the hard-coded release id. -/
theorem marketplace_request_amended_witness :
    (check_listings_requests "13811316" true).filter isMarketplaceRequest
      = [marketplaceRequest "13811316"] :=
  (marketplace_request_amended "13811316").1

/-- C4: a response body whose listing array sits under the `listings` key is
handled exactly like one whose identical array sits under the `results` key
(whatever else the `results` slot holds in the first case, since `listings`
is checked first); a body with neither key leaves the state untouched (zero
notifications), logs the "No listings found" line, and escapes nothing. -/
theorem response_key_handling :
    (∀ (st : MonitorState) (rid : String) (ls : List Listing) (other : Option (List Listing)),
       check_listings st rid (Except.ok ()) (Except.ok ⟨some ls, other⟩)
         = check_listings st rid (Except.ok ()) (Except.ok ⟨none, some ls⟩))
    ∧ (∀ (st : MonitorState) (rid : String),
       check_listings st rid (Except.ok ()) (Except.ok ⟨none, none⟩)
         = ⟨st, ["No listings found for release " ++ rid], none⟩) :=
  ⟨fun _ _ _ _ => rfl, fun _ _ => rfl⟩

/-- C5: for every combination of present/absent (or empty) values of the
three required environment variables, `_validate_config` fails with a
message enumerating exactly the missing names, comma-joined, in the
declared order DISCOGS_API_KEY, PUSHOVER_TOKEN, PUSHOVER_USER, and
succeeds when none is missing. -/
theorem validate_config_enumerates_missing (a b c : Option String) :
    validate_config (mkEnv a b c) =
      (let m := (if falsy a then ["DISCOGS_API_KEY"] else [])
                ++ (if falsy b then ["PUSHOVER_TOKEN"] else [])
                ++ (if falsy c then ["PUSHOVER_USER"] else [])
       if m.isEmpty then Except.ok ()
       else Except.error ("Missing required environment variables: "
              ++ String.intercalate ", " m)) := by
  cases ha : falsy a <;> cases hb : falsy b <;> cases hc : falsy c <;>
    simp [validate_config, missingVars, required_vars, mkEnv, ha, hb, hc]

/-- C10: an environment variable set to the empty string is treated exactly
like an absent one — Python's `not os.getenv(var)` is true for both — so
construction fails and the message names that variable among the missing
ones. -/
theorem empty_env_treated_as_missing :
    (∀ (b c : Option String),
       validate_config (mkEnv (some "") b c) = validate_config (mkEnv none b c))
    ∧ validate_config (mkEnv (some "") (some "t") (some "u"))
        = Except.error "Missing required environment variables: DISCOGS_API_KEY" :=
  ⟨fun _ _ => rfl, rfl⟩

/-- C6 counterexample: the claim says the rate-limit remaining/limit headers
are logged when present; on a 429 error whose response carries both
Discogs rate-limit headers, the except clause of lines 111-115 logs exactly
the error line, the status line and the body line — nothing from the
headers. -/
theorem rate_limit_headers_not_logged :
    rateLimitedErr.response
      = some ⟨429, "rate limited",
          [("X-Discogs-Ratelimit", "60"), ("X-Discogs-Ratelimit-Remaining", "0")]⟩
    ∧ (check_listings ⟨[], []⟩ "13811316" (Except.ok ()) (Except.error rateLimitedErr)).logs
      = ["Error checking listings: 429 Client Error: Too Many Requests",
         "Response status: 429",
         "Response body: rate limited"] :=
  ⟨rfl, rfl⟩

/-- C6 amended: on a transport error or non-success HTTP status (a
`RequestException` from either GET), `check_listings` lets nothing escape,
leaves the state untouched (the cycle processes no listings), logs the
error, and when response metadata is available also logs the status code
and the response body; rate-limit headers are not logged. -/
theorem fetch_error_recovered :
    (∀ (st : MonitorState) (rid msg : String) (r : RespMeta),
       check_listings st rid (Except.ok ()) (Except.error ⟨msg, some r⟩)
         = ⟨st, ["Error checking listings: " ++ msg,
                 "Response status: " ++ toString r.status_code,
                 "Response body: " ++ r.text], none⟩)
    ∧ (∀ (st : MonitorState) (rid msg : String),
       check_listings st rid (Except.ok ()) (Except.error ⟨msg, none⟩)
         = ⟨st, ["Error checking listings: " ++ msg], none⟩)
    ∧ (∀ (st : MonitorState) (rid : String) (e : ReqErr) (lf : Except ReqErr ResponseBody),
       check_listings st rid (Except.error e) lf = ⟨st, errorLogs e, none⟩) :=
  ⟨fun _ _ _ _ => rfl, fun _ _ _ => rfl, fun _ _ _ _ => rfl⟩

/-- C7: a transport-level fetch failure (from either GET) is caught inside
`check_listings`, so the loop iteration sleeps its configured interval in
1-unit increments (default 300), not the 60-unit cooldown; the cooldown is
taken exactly when an exception escapes `check_listings` into the loop
body. -/
theorem transport_error_normal_sleep :
    (∀ (st : MonitorState) (rid : String) (e : ReqErr) (interval : Nat),
       (run_cycle st rid (Except.ok ()) (Except.error e) interval).2
         = List.replicate interval 1)
    ∧ (∀ (st : MonitorState) (rid : String) (e : ReqErr) (lf : Except ReqErr ResponseBody)
         (interval : Nat),
       (run_cycle st rid (Except.error e) lf interval).2 = List.replicate interval 1)
    ∧ (∀ (st : MonitorState) (rid : String) (e : ReqErr),
       (run_cycle st rid (Except.ok ()) (Except.error e) run_default_interval).2
         = List.replicate 300 1)
    ∧ (∀ (st : MonitorState) (rid : String) (rf : Except ReqErr Unit)
         (lf : Except ReqErr ResponseBody) (interval : Nat),
       (check_listings st rid rf lf).escaped = none →
         (run_cycle st rid rf lf interval).2 = List.replicate interval 1)
    ∧ (∀ (st : MonitorState) (rid : String) (rf : Except ReqErr Unit)
         (lf : Except ReqErr ResponseBody) (interval : Nat) (e : PyError),
       (check_listings st rid rf lf).escaped = some e →
         (run_cycle st rid rf lf interval).2 = [60]) := by
  refine ⟨fun _ _ _ _ => rfl, fun _ _ _ _ _ => rfl, fun _ _ _ => rfl, ?_, ?_⟩
  · intro st rid rf lf interval h
    simp [run_cycle, h]
  · intro st rid rf lf interval e h
    simp [run_cycle, h]

/-- Witness for C7: a `KeyError` escaping `check_listings` (missing price
field in the fetched listing) routes the loop to the single 60-unit
cooldown sleep. -/
theorem transport_error_normal_sleep_witness :
    (run_cycle ⟨[], []⟩ "13811316" (Except.ok ())
       (Except.ok ⟨some [missingPriceListing], none⟩) 300).2 = [60] :=
  transport_error_normal_sleep.2.2.2.2 ⟨[], []⟩ "13811316" (Except.ok ())
    (Except.ok ⟨some [missingPriceListing], none⟩) 300 (PyError.keyError "price") rfl

end VinylNotify
